import Mathlib

/-!
Verification development for the PXD Photoshop UXP plugin
(bridge between Photoshop and a Stable Diffusion WebUI/Forge backend).

The TypeScript sources are shallowly embedded here:

* JavaScript finite numbers are modelled by rationals; a value that may be
  non-finite (NaN, plus/minus infinity) or absent is modelled by an option,
  with none standing for the non-finite/absent case, since every code path
  below branches on a Number.isFinite or typeof test before arithmetic.
* Math.round is the JavaScript rounding (half toward positive infinity),
  Math.floor the usual floor, Math.min / Math.max the lattice operations.
* Asynchronous code is embedded as pure functions of the outcomes of its
  awaited effects (each network fetch outcome is an input of the model).
-/

namespace PXD

/-- JavaScript Math.round: rounds half toward positive infinity.
(Rat.floor is used rather than the FloorRing floor so that the definition
evaluates by kernel reduction; the two agree, see jsRound_eq.) -/
def jsRound (x : ℚ) : ℤ := (x + 1 / 2).floor

/-- JavaScript Math.floor. -/
def jsFloor (x : ℚ) : ℤ := x.floor

theorem jsRound_eq (x : ℚ) : jsRound x = ⌊x + 1 / 2⌋ := by
  rw [jsRound, Rat.floor_def, Rat.floor_def']

theorem jsFloor_eq (x : ℚ) : jsFloor x = ⌊x⌋ := by
  rw [jsFloor, Rat.floor_def, Rat.floor_def']

/-- apiClient.ts: clampNumber(value, min, max) = Math.min(max, Math.max(min, value)). -/
def clampNumber (value lo hi : ℚ) : ℚ := min hi (max lo value)

/-! ## Timeout computation (src/services/apiClient.ts) -/

def DEFAULT_TIMEOUT : ℚ := 15000
def BASE_RESOLUTION : ℚ := 512 * 512
def BASE_TIMEOUT_BUDGET : ℚ := 20000
def TIMEOUT_MARGIN : ℚ := 5000
def DEFAULT_MAX_TIMEOUT : ℚ := 120000
def STEP_REFERENCE : ℚ := 20

/-- apiClient.ts TimeoutOptions: every field is optional, and a field that is
present but non-finite behaves exactly like an absent one (each is guarded by
Number.isFinite before use), so both are modelled by none. -/
structure TimeoutOptions where
  multiplier : Option ℚ
  minMs : Option ℚ
  maxMs : Option ℚ

/-- The multiplier resolved inside computeDynamicTimeout:
finite input clamped to [0.25, 10], otherwise 1. -/
def resolvedMultiplier (options : TimeoutOptions) : ℚ :=
  match options.multiplier with
  | some m => clampNumber m (1 / 4) 10
  | none => 1

/-- maxMsCandidate resolved inside computeDynamicTimeout. -/
def resolvedMaxCandidate (options : TimeoutOptions) : ℚ :=
  match options.maxMs with
  | some m => max BASE_TIMEOUT_BUDGET m
  | none => DEFAULT_MAX_TIMEOUT

/-- minMs resolved inside computeDynamicTimeout. -/
def resolvedMinMs (options : TimeoutOptions) : ℚ :=
  match options.minMs with
  | some m => clampNumber m 5000 (resolvedMaxCandidate options)
  | none => BASE_TIMEOUT_BUDGET

/-- maxMs resolved inside computeDynamicTimeout. -/
def resolvedMaxMs (options : TimeoutOptions) : ℚ :=
  max (resolvedMinMs options) (resolvedMaxCandidate options)

/-- apiClient.ts computeDynamicTimeout, transcribed from the source.  The
steps/width/height arguments are JavaScript numbers; none models a non-finite
input (which the initial Number.isFinite guard sends to the fallback). -/
def computeDynamicTimeout (steps width height : Option ℚ)
    (options : TimeoutOptions) : ℚ :=
  match steps, width, height with
  | some s, some w, some h =>
    if s ≤ 0 ∨ w ≤ 0 ∨ h ≤ 0 then
      max DEFAULT_TIMEOUT BASE_TIMEOUT_BUDGET
    else
      let multiplier := resolvedMultiplier options
      let minMs := resolvedMinMs options
      let maxMs := resolvedMaxMs options
      let areaScale := max 1 ((w * h) / BASE_RESOLUTION)
      let stepScale := clampNumber (s / STEP_REFERENCE) (1 / 2) 5
      let budget := (BASE_TIMEOUT_BUDGET + TIMEOUT_MARGIN) * areaScale * stepScale * multiplier
      ((jsRound (clampNumber budget minMs maxMs) : ℤ) : ℚ)
  | _, _, _ => max DEFAULT_TIMEOUT BASE_TIMEOUT_BUDGET

/-! Spec-side formulas for the timeout, written from the specification text
(for comparison against the transcription above). -/

/-- Spec: areaScale = max(1, (width*height) / (512*512)). -/
def specAreaScale (width height : ℚ) : ℚ := max 1 (width * height / (512 * 512))

/-- Spec: stepScale = clamp(steps/20, 0.5, 5). -/
def specStepScale (steps : ℚ) : ℚ := clampNumber (steps / 20) (1 / 2) 5

/-- Spec: budget = (20000ms + 5000ms) * areaScale * stepScale * multiplier. -/
def specBudget (steps width height multiplier : ℚ) : ℚ :=
  (20000 + 5000) * specAreaScale width height * specStepScale steps * multiplier

/-- The claim formula, exactly as stated: timeout = clamp(round(budget), minMs, maxMs),
with rounding applied before clamping. -/
def claimedTimeout (steps width height : ℚ) (options : TimeoutOptions) : ℚ :=
  clampNumber ((jsRound (specBudget steps width height (resolvedMultiplier options)) : ℤ) : ℚ)
    (resolvedMinMs options) (resolvedMaxMs options)

/-- The amended formula: timeout = round(clamp(budget, minMs, maxMs)),
with rounding applied after clamping (this is what the source computes; it
agrees with the claimed formula whenever minMs and maxMs are integers). -/
def amendedTimeout (steps width height : ℚ) (options : TimeoutOptions) : ℚ :=
  ((jsRound (clampNumber (specBudget steps width height (resolvedMultiplier options))
      (resolvedMinMs options) (resolvedMaxMs options)) : ℤ) : ℚ)

/-- Options record with no field configured. -/
def defaultTimeoutOptions : TimeoutOptions := ⟨none, none, none⟩

/-! ### Basic lemmas about the numeric helpers -/

theorem clampNumber_mono {v1 v2 lo hi : ℚ} (h : v1 ≤ v2) :
    clampNumber v1 lo hi ≤ clampNumber v2 lo hi :=
  min_le_min le_rfl (max_le_max le_rfl h)

theorem clampNumber_le_hi (v lo hi : ℚ) : clampNumber v lo hi ≤ hi :=
  min_le_left _ _

theorem lo_le_clampNumber {lo hi : ℚ} (v : ℚ) (h : lo ≤ hi) :
    lo ≤ clampNumber v lo hi :=
  le_min h (le_max_left _ _)

theorem jsRound_mono {x y : ℚ} (h : x ≤ y) : jsRound x ≤ jsRound y := by
  rw [jsRound_eq, jsRound_eq]
  exact Int.floor_mono (by linarith)

theorem jsRound_cast_le (x : ℚ) : ((jsRound x : ℤ) : ℚ) ≤ x + 1 / 2 := by
  rw [jsRound_eq]
  exact Int.floor_le _

theorem sub_half_lt_jsRound (x : ℚ) : x - 1 / 2 < ((jsRound x : ℤ) : ℚ) := by
  rw [jsRound_eq]
  have := Int.lt_floor_add_one (x + 1 / 2)
  linarith

theorem jsRound_intCast (z : ℤ) : jsRound ((z : ℤ) : ℚ) = z := by
  rw [jsRound_eq, Int.floor_int_add]
  norm_num

theorem jsRound_le_of_le_intCast {x : ℚ} {z : ℤ} (h : x ≤ (z : ℚ)) :
    jsRound x ≤ z :=
  (jsRound_mono h).trans_eq (jsRound_intCast z)

theorem intCast_le_jsRound {x : ℚ} {z : ℤ} (h : ((z : ℤ) : ℚ) ≤ x) :
    z ≤ jsRound x :=
  (jsRound_intCast z).symm.trans_le (jsRound_mono h)

theorem jsRound_eq_of (x : ℚ) (n : ℤ) (h1 : (n : ℚ) ≤ x + 1 / 2)
    (h2 : x + 1 / 2 < n + 1) : jsRound x = n := by
  rw [jsRound_eq]
  exact Int.floor_eq_iff.mpr ⟨h1, h2⟩

/-! ### Structure of computeDynamicTimeout -/

theorem resolvedMinMs_le_resolvedMaxMs (o : TimeoutOptions) :
    resolvedMinMs o ≤ resolvedMaxMs o :=
  le_max_left _ _

/-- In the all-finite, all-positive branch the transcription agrees with the
amended spec formula (rounding applied after clamping). -/
theorem computeDynamicTimeout_eq_amended (s w h : ℚ) (o : TimeoutOptions)
    (hs : 0 < s) (hw : 0 < w) (hh : 0 < h) :
    computeDynamicTimeout (some s) (some w) (some h) o = amendedTimeout s w h o := by
  have hcond : ¬(s ≤ 0 ∨ w ≤ 0 ∨ h ≤ 0) := by
    push_neg
    exact ⟨hs, hw, hh⟩
  simp only [computeDynamicTimeout, amendedTimeout, specBudget, specAreaScale,
    specStepScale, BASE_TIMEOUT_BUDGET, TIMEOUT_MARGIN, BASE_RESOLUTION,
    STEP_REFERENCE, if_neg hcond]

theorem computeDynamicTimeout_fallback (s w h : Option ℚ) (o : TimeoutOptions)
    (hne : s = none ∨ w = none ∨ h = none) :
    computeDynamicTimeout s w h o = 20000 := by
  unfold computeDynamicTimeout
  split
  · rename_i sv wv hv
    simp_all
  · rw [DEFAULT_TIMEOUT, BASE_TIMEOUT_BUDGET]
    norm_num

theorem computeDynamicTimeout_nonpos (s w h : ℚ) (o : TimeoutOptions)
    (hnp : s ≤ 0 ∨ w ≤ 0 ∨ h ≤ 0) :
    computeDynamicTimeout (some s) (some w) (some h) o = 20000 := by
  rw [computeDynamicTimeout, if_pos hnp, DEFAULT_TIMEOUT, BASE_TIMEOUT_BUDGET]
  norm_num

theorem amendedTimeout_default_base :
    amendedTimeout 20 512 512 defaultTimeoutOptions = 25000 := by
  have hbudget : specBudget 20 512 512 (resolvedMultiplier defaultTimeoutOptions) = 25000 := by
    rw [specBudget, specAreaScale, specStepScale, resolvedMultiplier, defaultTimeoutOptions,
      clampNumber]
    norm_num
  rw [amendedTimeout, hbudget, resolvedMinMs, resolvedMaxMs, resolvedMinMs,
    resolvedMaxCandidate, defaultTimeoutOptions, BASE_TIMEOUT_BUDGET, DEFAULT_MAX_TIMEOUT,
    clampNumber]
  have h1 : min (max (20000 : ℚ) 120000) (max 20000 25000) = 25000 := by norm_num
  rw [h1, show ((25000 : ℚ)) = ((25000 : ℤ) : ℚ) by norm_num, jsRound_intCast]

/-- Options with a fractional minMs (30000.25 ms), used to separate
round-then-clamp from clamp-then-round. -/
def fracOptions : TimeoutOptions := ⟨none, some (120001 / 4), none⟩

theorem fracOptions_minMs : resolvedMinMs fracOptions = 120001 / 4 := by
  simp only [fracOptions, resolvedMinMs, resolvedMaxCandidate, BASE_TIMEOUT_BUDGET,
    DEFAULT_MAX_TIMEOUT, clampNumber]
  norm_num

theorem fracOptions_maxMs : resolvedMaxMs fracOptions = 120000 := by
  rw [resolvedMaxMs, fracOptions_minMs]
  simp only [fracOptions, resolvedMaxCandidate, DEFAULT_MAX_TIMEOUT]
  norm_num

theorem fracOptions_multiplier : resolvedMultiplier fracOptions = 1 := rfl

theorem specBudget_base (m : ℚ) : specBudget 20 512 512 m = 25000 * m := by
  rw [specBudget, specAreaScale, specStepScale, clampNumber]
  norm_num

theorem computeDynamicTimeout_fracOptions :
    computeDynamicTimeout (some 20) (some 512) (some 512) fracOptions = 30000 := by
  rw [computeDynamicTimeout_eq_amended 20 512 512 fracOptions (by norm_num) (by norm_num)
    (by norm_num), amendedTimeout, fracOptions_multiplier, specBudget_base,
    fracOptions_minMs, fracOptions_maxMs, clampNumber]
  have h1 : min (120000 : ℚ) (max (120001 / 4) (25000 * 1)) = 120001 / 4 := by norm_num
  rw [h1, jsRound_eq_of (120001 / 4) 30000 (by norm_num) (by norm_num)]
  norm_num

/-- C1 counterexample: at steps=20, width=512, height=512 with a configured
minMs of 30000.25 ms, the code returns round(clamp(budget, minMs, maxMs)) =
round(30000.25) = 30000, while the claimed formula clamp(round(budget), minMs,
maxMs) yields 30000.25 — so the claim, which applies rounding before clamping,
is false as stated. -/
theorem C1_counterexample :
    computeDynamicTimeout (some 20) (some 512) (some 512) fracOptions ≠
      claimedTimeout 20 512 512 fracOptions := by
  rw [computeDynamicTimeout_fracOptions, claimedTimeout, fracOptions_multiplier,
    specBudget_base, fracOptions_minMs, fracOptions_maxMs,
    show (25000 : ℚ) * 1 = ((25000 : ℤ) : ℚ) by norm_num, jsRound_intCast, clampNumber]
  norm_num

/-- C1 (amended): for every finite steps > 0, width > 0, height > 0,
computeDynamicTimeout returns round(clamp((20000 + 5000) * areaScale *
stepScale * multiplier, minMs, maxMs)) — the rounding is applied after the
clamping, which agrees with the claimed clamp(round(budget), minMs, maxMs)
whenever the resolved bounds are integers — where areaScale =
max(1, (width*height)/(512*512)), stepScale = clamp(steps/20, 0.5, 5), and
the configured multiplier defaults to 1 and is clamped to [0.25, 10]; it
returns exactly 25000 ms for steps=20, width=512, height=512 with default
options; and whenever steps, width, or height is non-finite or ≤ 0 it
returns the fixed 20000 ms fallback. -/
theorem C1_timeout_formula :
    (∀ (s w h : ℚ) (o : TimeoutOptions), 0 < s → 0 < w → 0 < h →
      computeDynamicTimeout (some s) (some w) (some h) o = amendedTimeout s w h o)
    ∧ computeDynamicTimeout (some 20) (some 512) (some 512) defaultTimeoutOptions = 25000
    ∧ (∀ (w h : Option ℚ) (o : TimeoutOptions),
        computeDynamicTimeout none w h o = 20000)
    ∧ (∀ (s h : Option ℚ) (o : TimeoutOptions),
        computeDynamicTimeout s none h o = 20000)
    ∧ (∀ (s w : Option ℚ) (o : TimeoutOptions),
        computeDynamicTimeout s w none o = 20000)
    ∧ (∀ (s w h : ℚ) (o : TimeoutOptions), s ≤ 0 ∨ w ≤ 0 ∨ h ≤ 0 →
        computeDynamicTimeout (some s) (some w) (some h) o = 20000) := by
  refine ⟨computeDynamicTimeout_eq_amended, ?_, ?_, ?_, ?_, computeDynamicTimeout_nonpos⟩
  · rw [computeDynamicTimeout_eq_amended 20 512 512 defaultTimeoutOptions (by norm_num)
      (by norm_num) (by norm_num), amendedTimeout_default_base]
  · intro w h o
    exact computeDynamicTimeout_fallback none w h o (Or.inl rfl)
  · intro s h o
    exact computeDynamicTimeout_fallback s none h o (Or.inr (Or.inl rfl))
  · intro s w o
    exact computeDynamicTimeout_fallback s w none o (Or.inr (Or.inr rfl))

/-- C1 witness: the amended formula instantiated at steps=30, a 1024×1024
area with default options, and the fallback at steps=0. -/
theorem C1_timeout_formula_witness :
    computeDynamicTimeout (some 30) (some 1024) (some 1024) defaultTimeoutOptions =
      amendedTimeout 30 1024 1024 defaultTimeoutOptions
    ∧ computeDynamicTimeout (some 0) (some 512) (some 512) defaultTimeoutOptions = 20000 :=
  ⟨C1_timeout_formula.1 30 1024 1024 defaultTimeoutOptions (by norm_num) (by norm_num)
      (by norm_num),
    C1_timeout_formula.2.2.2.2.2 0 512 512 defaultTimeoutOptions (Or.inl le_rfl)⟩

/-! ### Monotonicity and bounds of the timeout -/

theorem specStepScale_mono {s1 s2 : ℚ} (h : s1 ≤ s2) :
    specStepScale s1 ≤ specStepScale s2 := by
  rw [specStepScale, specStepScale]
  exact clampNumber_mono (by linarith)

theorem half_le_specStepScale (s : ℚ) : 1 / 2 ≤ specStepScale s :=
  lo_le_clampNumber _ (by norm_num)

theorem specStepScale_nonneg (s : ℚ) : 0 ≤ specStepScale s :=
  le_trans (by norm_num) (half_le_specStepScale s)

theorem one_le_specAreaScale (w h : ℚ) : 1 ≤ specAreaScale w h :=
  le_max_left _ _

theorem specAreaScale_mono {w1 h1 w2 h2 : ℚ} (h : w1 * h1 ≤ w2 * h2) :
    specAreaScale w1 h1 ≤ specAreaScale w2 h2 :=
  max_le_max le_rfl (by rw [div_le_div_iff_of_pos_right] <;> [exact h; norm_num])

theorem resolvedMultiplier_nonneg (o : TimeoutOptions) : 0 ≤ resolvedMultiplier o := by
  rw [resolvedMultiplier]
  cases o.multiplier with
  | none => norm_num
  | some m => exact le_trans (by norm_num) (lo_le_clampNumber m (by norm_num))

theorem specBudget_mono_steps {s1 s2 : ℚ} (w h m : ℚ) (hs : s1 ≤ s2) (hm : 0 ≤ m) :
    specBudget s1 w h m ≤ specBudget s2 w h m := by
  rw [specBudget, specBudget]
  have h1 : (0 : ℚ) ≤ (20000 + 5000) * specAreaScale w h := by
    have := one_le_specAreaScale w h
    nlinarith
  exact mul_le_mul_of_nonneg_right
    (mul_le_mul_of_nonneg_left (specStepScale_mono hs) h1) hm

theorem specBudget_mono_area {w1 h1 w2 h2 : ℚ} (s m : ℚ) (ha : w1 * h1 ≤ w2 * h2)
    (hm : 0 ≤ m) : specBudget s w1 h1 m ≤ specBudget s w2 h2 m := by
  rw [specBudget, specBudget]
  have h1 : (20000 + 5000) * specAreaScale w1 h1 ≤ (20000 + 5000) * specAreaScale w2 h2 :=
    mul_le_mul_of_nonneg_left (specAreaScale_mono ha) (by norm_num)
  exact mul_le_mul_of_nonneg_right
    (mul_le_mul_of_nonneg_right h1 (specStepScale_nonneg s)) hm

theorem specBudget_mono_multiplier {m1 m2 : ℚ} (s w h : ℚ) (hm : m1 ≤ m2) :
    specBudget s w h m1 ≤ specBudget s w h m2 := by
  rw [specBudget, specBudget]
  have h1 : (0 : ℚ) ≤ (20000 + 5000) * specAreaScale w h * specStepScale s := by
    have h2 := one_le_specAreaScale w h
    have h3 := specStepScale_nonneg s
    nlinarith
  exact mul_le_mul_of_nonneg_left hm h1

theorem amendedTimeout_mono {s1 w1 h1 s2 w2 h2 : ℚ} {o1 o2 : TimeoutOptions}
    (hb : specBudget s1 w1 h1 (resolvedMultiplier o1) ≤
      specBudget s2 w2 h2 (resolvedMultiplier o2))
    (hmin : resolvedMinMs o1 = resolvedMinMs o2)
    (hmax : resolvedMaxMs o1 = resolvedMaxMs o2) :
    amendedTimeout s1 w1 h1 o1 ≤ amendedTimeout s2 w2 h2 o2 := by
  rw [amendedTimeout, amendedTimeout, hmin, hmax]
  exact_mod_cast jsRound_mono (clampNumber_mono hb)

/-- C6 counterexample: with a configured minMs of 30000.25 ms and small
positive inputs, the returned timeout is 30000 ms, which is strictly below
the resolved minMs — so the result does not always lie within
[minMs, maxMs] as the claim states. -/
theorem C6_counterexample :
    ¬(resolvedMinMs fracOptions ≤
        computeDynamicTimeout (some 20) (some 512) (some 512) fracOptions) := by
  rw [computeDynamicTimeout_fracOptions, fracOptions_minMs]
  norm_num

/-- C6 (amended): for all positive finite inputs, computeDynamicTimeout is
monotonically non-decreasing in steps, in the product width*height, and in
the configured multiplier; its result always lies within
[minMs - 1/2, maxMs + 1/2] around the resolved bounds, and exactly within
[minMs, maxMs] whenever the resolved bounds are integers (as every bound
derived from the settings is, since they are produced by Math.round). -/
theorem C6_timeout_monotone :
    (∀ (s1 s2 w h : ℚ) (o : TimeoutOptions), 0 < s1 → s1 ≤ s2 → 0 < w → 0 < h →
      computeDynamicTimeout (some s1) (some w) (some h) o ≤
        computeDynamicTimeout (some s2) (some w) (some h) o)
    ∧ (∀ (s w1 h1 w2 h2 : ℚ) (o : TimeoutOptions), 0 < s → 0 < w1 → 0 < h1 →
        0 < w2 → 0 < h2 → w1 * h1 ≤ w2 * h2 →
        computeDynamicTimeout (some s) (some w1) (some h1) o ≤
          computeDynamicTimeout (some s) (some w2) (some h2) o)
    ∧ (∀ (s w h m1 m2 : ℚ) (mn mx : Option ℚ), 0 < s → 0 < w → 0 < h → m1 ≤ m2 →
        computeDynamicTimeout (some s) (some w) (some h) ⟨some m1, mn, mx⟩ ≤
          computeDynamicTimeout (some s) (some w) (some h) ⟨some m2, mn, mx⟩)
    ∧ (∀ (s w h : ℚ) (o : TimeoutOptions), 0 < s → 0 < w → 0 < h →
        resolvedMinMs o - 1 / 2 ≤ computeDynamicTimeout (some s) (some w) (some h) o
        ∧ computeDynamicTimeout (some s) (some w) (some h) o ≤ resolvedMaxMs o + 1 / 2)
    ∧ (∀ (s w h : ℚ) (o : TimeoutOptions) (a b : ℤ), 0 < s → 0 < w → 0 < h →
        resolvedMinMs o = (a : ℚ) → resolvedMaxMs o = (b : ℚ) →
        (a : ℚ) ≤ computeDynamicTimeout (some s) (some w) (some h) o
        ∧ computeDynamicTimeout (some s) (some w) (some h) o ≤ (b : ℚ)) := by
  refine ⟨?_, ?_, ?_, ?_, ?_⟩
  · intro s1 s2 w h o hs1 hs hw hh
    rw [computeDynamicTimeout_eq_amended s1 w h o hs1 hw hh,
      computeDynamicTimeout_eq_amended s2 w h o (lt_of_lt_of_le hs1 hs) hw hh]
    exact amendedTimeout_mono
      (specBudget_mono_steps w h _ hs (resolvedMultiplier_nonneg o)) rfl rfl
  · intro s w1 h1 w2 h2 o hs hw1 hh1 hw2 hh2 ha
    rw [computeDynamicTimeout_eq_amended s w1 h1 o hs hw1 hh1,
      computeDynamicTimeout_eq_amended s w2 h2 o hs hw2 hh2]
    exact amendedTimeout_mono
      (specBudget_mono_area s _ ha (resolvedMultiplier_nonneg o)) rfl rfl
  · intro s w h m1 m2 mn mx hs hw hh hm
    rw [computeDynamicTimeout_eq_amended s w h _ hs hw hh,
      computeDynamicTimeout_eq_amended s w h _ hs hw hh]
    refine amendedTimeout_mono ?_ rfl rfl
    refine specBudget_mono_multiplier s w h ?_
    rw [resolvedMultiplier, resolvedMultiplier]
    exact clampNumber_mono hm
  · intro s w h o hs hw hh
    rw [computeDynamicTimeout_eq_amended s w h o hs hw hh, amendedTimeout]
    set y := clampNumber (specBudget s w h (resolvedMultiplier o)) (resolvedMinMs o)
      (resolvedMaxMs o) with hy
    have hylo : resolvedMinMs o ≤ y := lo_le_clampNumber _ (resolvedMinMs_le_resolvedMaxMs o)
    have hyhi : y ≤ resolvedMaxMs o := clampNumber_le_hi _ _ _
    have h1 := sub_half_lt_jsRound y
    have h2 := jsRound_cast_le y
    constructor
    · linarith
    · linarith
  · intro s w h o a b hs hw hh hma hmb
    rw [computeDynamicTimeout_eq_amended s w h o hs hw hh, amendedTimeout]
    set y := clampNumber (specBudget s w h (resolvedMultiplier o)) (resolvedMinMs o)
      (resolvedMaxMs o) with hy
    have hylo : (a : ℚ) ≤ y := hma ▸ lo_le_clampNumber _ (resolvedMinMs_le_resolvedMaxMs o)
    have hyhi : y ≤ (b : ℚ) := hmb ▸ clampNumber_le_hi _ _ _
    constructor
    · exact_mod_cast intCast_le_jsRound hylo
    · exact_mod_cast jsRound_le_of_le_intCast hyhi

/-- C6 witness: monotonicity instantiated at (steps 20 ≤ 30), (area 512² ≤
1024²), (multiplier 1 ≤ 2), and the bounds at the 20/512/512 base point with
default (integer) bounds. -/
theorem C6_timeout_monotone_witness :
    computeDynamicTimeout (some 20) (some 512) (some 512) defaultTimeoutOptions ≤
      computeDynamicTimeout (some 30) (some 512) (some 512) defaultTimeoutOptions
    ∧ computeDynamicTimeout (some 20) (some 512) (some 512) defaultTimeoutOptions ≤
        computeDynamicTimeout (some 20) (some 1024) (some 1024) defaultTimeoutOptions
    ∧ computeDynamicTimeout (some 20) (some 512) (some 512) ⟨some 1, none, none⟩ ≤
        computeDynamicTimeout (some 20) (some 512) (some 512) ⟨some 2, none, none⟩
    ∧ ((20000 : ℤ) : ℚ) ≤ computeDynamicTimeout (some 20) (some 512) (some 512)
        defaultTimeoutOptions
    ∧ computeDynamicTimeout (some 20) (some 512) (some 512) defaultTimeoutOptions ≤
        ((120000 : ℤ) : ℚ) :=
  ⟨C6_timeout_monotone.1 20 30 512 512 defaultTimeoutOptions (by norm_num) (by norm_num)
      (by norm_num) (by norm_num),
    C6_timeout_monotone.2.1 20 512 512 1024 1024 defaultTimeoutOptions (by norm_num)
      (by norm_num) (by norm_num) (by norm_num) (by norm_num) (by norm_num),
    C6_timeout_monotone.2.2.1 20 512 512 1 2 none none (by norm_num) (by norm_num)
      (by norm_num) (by norm_num),
    (C6_timeout_monotone.2.2.2.2 20 512 512 defaultTimeoutOptions 20000 120000
        (by norm_num) (by norm_num) (by norm_num)
        (by rw [resolvedMinMs, defaultTimeoutOptions, BASE_TIMEOUT_BUDGET]; norm_num)
        (by rw [resolvedMaxMs, resolvedMinMs, resolvedMaxCandidate, defaultTimeoutOptions,
              BASE_TIMEOUT_BUDGET, DEFAULT_MAX_TIMEOUT]
            norm_num)).1,
    (C6_timeout_monotone.2.2.2.2 20 512 512 defaultTimeoutOptions 20000 120000
        (by norm_num) (by norm_num) (by norm_num)
        (by rw [resolvedMinMs, defaultTimeoutOptions, BASE_TIMEOUT_BUDGET]; norm_num)
        (by rw [resolvedMaxMs, resolvedMinMs, resolvedMaxCandidate, defaultTimeoutOptions,
              BASE_TIMEOUT_BUDGET, DEFAULT_MAX_TIMEOUT]
            norm_num)).2⟩

/-! ## Mask geometry (src/services/photoshop.ts, embedded in apiClient.ts source) -/

structure SelectionBounds where
  left : ℚ
  top : ℚ
  right : ℚ
  bottom : ℚ

/-- MASK_FEATHER_RATIO = 0.08. -/
def MASK_FEATHER_RATIO : ℚ := 8 / 100

/-- MASK_MAX_FEATHER = 1200. -/
def MASK_MAX_FEATHER : ℚ := 1200

/-- photoshop service computeMaskAdjustments, transcribed from the source;
returns (contract, feather).  The override argument models the JavaScript
featherOverride parameter: some f stands for a finite number (the code
ignores a non-finite or absent override, both modelled by none).  The source
also computes a local maxContract that it never reads; that dead local is
omitted. -/
def computeMaskAdjustments (bounds : SelectionBounds)
    (featherOverride : Option ℚ) : ℚ × ℚ :=
  let width := max 0 (bounds.right - bounds.left)
  let height := max 0 (bounds.bottom - bounds.top)
  let minSize := max 1 (min width height)
  let maxFeather := max 0 ((jsFloor (minSize / 2) : ℤ) : ℚ)
  let featherDefault := max 0 (min (min ((jsRound (minSize * MASK_FEATHER_RATIO) : ℤ) : ℚ)
    maxFeather) MASK_MAX_FEATHER)
  let feather := match featherOverride with
    | some f => max 0 (min (min ((jsRound f : ℤ) : ℚ) maxFeather) MASK_MAX_FEATHER)
    | none => featherDefault
  (feather, feather)

/-- Spec: minSize = max(1, min(selectionWidth, selectionHeight)). -/
def specMaskMinSize (sw sh : ℚ) : ℚ := max 1 (min sw sh)

/-- Spec: the upper clamp bound for the feather: min(floor(minSize/2), 1200). -/
def specMaskFeatherBound (minSize : ℚ) : ℚ := min ((jsFloor (minSize / 2) : ℤ) : ℚ) 1200

/-- Spec: default feather = clamp(round(minSize*0.08), 0, floor(minSize/2), 1200);
a finite explicit feather override replaces the default, clamped (after
rounding) to the same bounds. -/
def specMaskFeather (sw sh : ℚ) (override : Option ℚ) : ℚ :=
  let minSize := specMaskMinSize sw sh
  match override with
  | none => clampNumber ((jsRound (minSize * (8 / 100)) : ℤ) : ℚ) 0 (specMaskFeatherBound minSize)
  | some f => clampNumber ((jsRound f : ℤ) : ℚ) 0 (specMaskFeatherBound minSize)

theorem jsFloor_eq_of (x : ℚ) (n : ℤ) (h1 : (n : ℚ) ≤ x) (h2 : x < n + 1) :
    jsFloor x = n := by
  rw [jsFloor_eq]
  exact Int.floor_eq_iff.mpr ⟨h1, h2⟩

theorem jsFloor_nonneg {x : ℚ} (h : 0 ≤ x) : 0 ≤ jsFloor x := by
  rw [jsFloor_eq]
  exact Int.floor_nonneg.mpr h

/-- The code form of the feather clamp agrees with the spec form. -/
theorem maskClamp_eq {r fl : ℚ} (hfl : 0 ≤ fl) :
    max 0 (min (min r (max 0 fl)) 1200) = clampNumber r 0 (min fl 1200) := by
  rw [clampNumber]
  simp only [min_def, max_def]
  split_ifs <;> linarith

theorem computeMaskAdjustments_eq_spec (b : SelectionBounds) (fo : Option ℚ) :
    computeMaskAdjustments b fo =
      (specMaskFeather (max 0 (b.right - b.left)) (max 0 (b.bottom - b.top)) fo,
       specMaskFeather (max 0 (b.right - b.left)) (max 0 (b.bottom - b.top)) fo) := by
  have hfl : (0 : ℚ) ≤ ((jsFloor (max 1 (min (max 0 (b.right - b.left))
      (max 0 (b.bottom - b.top))) / 2) : ℤ) : ℚ) := by
    have h0 : (0 : ℚ) ≤ max 1 (min (max 0 (b.right - b.left)) (max 0 (b.bottom - b.top))) / 2 := by
      have := le_max_left (1 : ℚ) (min (max 0 (b.right - b.left)) (max 0 (b.bottom - b.top)))
      linarith
    exact_mod_cast jsFloor_nonneg h0
  cases fo with
  | none =>
    simp only [computeMaskAdjustments, specMaskFeather, specMaskMinSize,
      specMaskFeatherBound, MASK_FEATHER_RATIO, MASK_MAX_FEATHER]
    rw [maskClamp_eq hfl]
  | some f =>
    simp only [computeMaskAdjustments, specMaskFeather, specMaskMinSize,
      specMaskFeatherBound, MASK_FEATHER_RATIO, MASK_MAX_FEATHER]
    rw [maskClamp_eq hfl]

theorem maskAdjustments_100_none :
    computeMaskAdjustments ⟨0, 0, 100, 100⟩ none = (8, 8) := by
  rw [computeMaskAdjustments_eq_spec]
  simp only [specMaskFeather, specMaskMinSize, specMaskFeatherBound, clampNumber]
  norm_num
  rw [jsFloor_eq_of 50 50 (by norm_num) (by norm_num),
    jsRound_eq_of 8 8 (by norm_num) (by norm_num)]
  norm_num

theorem maskAdjustments_100_override :
    computeMaskAdjustments ⟨0, 0, 100, 100⟩ (some 1000) = (50, 50) := by
  rw [computeMaskAdjustments_eq_spec]
  simp only [specMaskFeather, specMaskMinSize, specMaskFeatherBound, clampNumber]
  norm_num
  rw [jsFloor_eq_of 50 50 (by norm_num) (by norm_num),
    jsRound_eq_of 1000 1000 (by norm_num) (by norm_num)]
  norm_num

/-- C5: for every selection bounds, the mask geometry follows the spec formula:
with selectionWidth/selectionHeight the nonnegative extents of the bounds and
minSize = max(1, min(selectionWidth, selectionHeight)), the feather is
round(minSize*0.08) clamped below by 0 and above by floor(minSize/2) and 1200;
a finite explicit feather override replaces the default (rounded, then clamped
to the same bounds); the contract amount always equals the resolved feather;
and a 100×100 selection resolves to feather 8 with no override and to 50 with
override 1000. -/
theorem C5_mask_geometry :
    (∀ (b : SelectionBounds) (fo : Option ℚ),
      computeMaskAdjustments b fo =
        (specMaskFeather (max 0 (b.right - b.left)) (max 0 (b.bottom - b.top)) fo,
         specMaskFeather (max 0 (b.right - b.left)) (max 0 (b.bottom - b.top)) fo))
    ∧ (∀ (b : SelectionBounds) (fo : Option ℚ),
        (computeMaskAdjustments b fo).1 = (computeMaskAdjustments b fo).2)
    ∧ (computeMaskAdjustments ⟨0, 0, 100, 100⟩ none).2 = 8
    ∧ (computeMaskAdjustments ⟨0, 0, 100, 100⟩ (some 1000)).2 = 50 :=
  ⟨computeMaskAdjustments_eq_spec,
    fun b fo => by rw [computeMaskAdjustments_eq_spec],
    by rw [maskAdjustments_100_none],
    by rw [maskAdjustments_100_override]⟩

/-! ## Enqueue-time override size (src/hooks/useGenerationController.ts) -/

/-- useGenerationController.ts computeOverrideSize, transcribed from the
source: a selection already within the target is returned unchanged, and
otherwise each dimension is scaled by min(target/width, target/height),
rounded, and floored at 32. -/
def computeOverrideSize (width height target : ℚ) : ℚ × ℚ :=
  if width ≤ target ∧ height ≤ target then (width, height)
  else
    let scale := min (target / width) (target / height)
    (max 32 ((jsRound (width * scale) : ℤ) : ℚ),
     max 32 ((jsRound (height * scale) : ℤ) : ℚ))

/-- Spec: the common downscale factor min(target/width, target/height). -/
def specOverrideScale (width height target : ℚ) : ℚ :=
  min (target / width) (target / height)

/-- Spec (claim C10): a scaled output dimension is max(32, round(dim * scale)). -/
def specScaledDim (dim scale : ℚ) : ℚ := max 32 ((jsRound (dim * scale) : ℤ) : ℚ)

/-- The claim C4 aspect-ratio condition, formalised: some common scale factor
reproduces both output dimensions within rounding (within 1/2 each). -/
def aspectWithinRounding (width height outW outH : ℚ) : Prop :=
  ∃ s : ℚ, |outW - s * width| ≤ 1 / 2 ∧ |outH - s * height| ≤ 1 / 2

theorem jsRound_le_of_lt_half {x : ℚ} {z : ℤ} (h : x < (z : ℚ) + 1 / 2) :
    jsRound x ≤ z := by
  rw [jsRound_eq, ← Int.lt_add_one_iff, Int.floor_lt]
  push_cast
  linarith

theorem overrideSize_2000_10_768 : computeOverrideSize 2000 10 768 = (768, 32) := by
  rw [computeOverrideSize, if_neg (by norm_num)]
  norm_num
  rw [jsRound_eq_of 768 768 (by norm_num) (by norm_num),
    jsRound_eq_of (96 / 25) 4 (by norm_num) (by norm_num)]
  norm_num

/-- C10: whenever the selection exceeds the target in some dimension (and all
quantities are positive, as they are for a pixel selection and the clamped
resolution target), each output dimension of computeOverrideSize equals
max(32, round(dimension * scale)) with scale = min(target/width,
target/height), so every scaled output dimension is at least 32. -/
theorem C10_override_floor (w h t : ℚ) (hw : 0 < w) (hh : 0 < h) (ht : 0 < t)
    (hexceed : t < w ∨ t < h) :
    computeOverrideSize w h t =
      (specScaledDim w (specOverrideScale w h t), specScaledDim h (specOverrideScale w h t))
    ∧ 32 ≤ (computeOverrideSize w h t).1 ∧ 32 ≤ (computeOverrideSize w h t).2 := by
  have hcond : ¬(w ≤ t ∧ h ≤ t) := by
    push_neg
    intro hwle
    rcases hexceed with hx | hx
    · exact absurd hwle (not_le.mpr hx)
    · exact hx
  rw [computeOverrideSize, if_neg hcond, specScaledDim, specScaledDim, specOverrideScale]
  exact ⟨rfl, le_max_left _ _, le_max_left _ _⟩

/-- C10 witness: a 2000×10 selection with a 768 target; the height scaled
proportionally would be about 3.84, yet the output height is floored to 32. -/
theorem C10_override_floor_witness :
    computeOverrideSize 2000 10 768 =
      (specScaledDim 2000 (specOverrideScale 2000 10 768),
       specScaledDim 10 (specOverrideScale 2000 10 768))
    ∧ 32 ≤ (computeOverrideSize 2000 10 768).1
    ∧ 32 ≤ (computeOverrideSize 2000 10 768).2 :=
  C10_override_floor 2000 10 768 (by norm_num) (by norm_num) (by norm_num)
    (Or.inl (by norm_num))

/-- C4 counterexample: a 2000×10 selection with a 768 target is mapped to
768×32 — the output height 32 exceeds the input height 10 (an upscale), and
no common scale factor reproduces both outputs within rounding, so the
aspect ratio is not preserved within rounding. -/
theorem C4_counterexample :
    computeOverrideSize 2000 10 768 = (768, 32)
    ∧ ¬((computeOverrideSize 2000 10 768).2 ≤ 10)
    ∧ ¬ aspectWithinRounding 2000 10 (computeOverrideSize 2000 10 768).1
        (computeOverrideSize 2000 10 768).2 := by
  refine ⟨overrideSize_2000_10_768, ?_, ?_⟩
  · rw [overrideSize_2000_10_768]
    norm_num
  · rw [overrideSize_2000_10_768, aspectWithinRounding]
    rintro ⟨s, h1, h2⟩
    rw [abs_le] at h1 h2
    obtain ⟨h1a, h1b⟩ := h1
    obtain ⟨h2a, h2b⟩ := h2
    norm_num at h1a h1b h2a h2b
    linarith

/-- C4 (amended): for integer selection dimensions and an integer target of
at least 128 (as the call sites produce: pixel selections and
clamp(resolution, 128, 2048)): a selection within the target is returned
unchanged; when scaling occurs both output dimensions are at most the target
and each output dimension is at most max(input dimension, 32) — the selection
is never upscaled beyond the 32-pixel floor — and each dimension whose
rounded scaled value reaches 32 equals the common-scale value within
rounding (so the aspect ratio is preserved within rounding except where the
32-pixel floor applies); a 2000×2000 selection with a 768 target yields
768×768, both dimensions ≤ 768. -/
theorem C4_never_upscales :
    (∀ (w h t : ℤ), 0 < w → 0 < h → 128 ≤ t →
      ((w : ℚ) ≤ (t : ℚ) ∧ (h : ℚ) ≤ (t : ℚ) →
        computeOverrideSize (w : ℚ) (h : ℚ) (t : ℚ) = ((w : ℚ), (h : ℚ)))
      ∧ (¬((w : ℚ) ≤ (t : ℚ) ∧ (h : ℚ) ≤ (t : ℚ)) →
          (computeOverrideSize (w : ℚ) (h : ℚ) (t : ℚ)).1 ≤ (t : ℚ)
          ∧ (computeOverrideSize (w : ℚ) (h : ℚ) (t : ℚ)).2 ≤ (t : ℚ)
          ∧ (computeOverrideSize (w : ℚ) (h : ℚ) (t : ℚ)).1 ≤ max (w : ℚ) 32
          ∧ (computeOverrideSize (w : ℚ) (h : ℚ) (t : ℚ)).2 ≤ max (h : ℚ) 32
          ∧ (32 ≤ jsRound ((w : ℚ) * specOverrideScale (w : ℚ) (h : ℚ) (t : ℚ)) →
              |(computeOverrideSize (w : ℚ) (h : ℚ) (t : ℚ)).1 -
                (w : ℚ) * specOverrideScale (w : ℚ) (h : ℚ) (t : ℚ)| ≤ 1 / 2)
          ∧ (32 ≤ jsRound ((h : ℚ) * specOverrideScale (w : ℚ) (h : ℚ) (t : ℚ)) →
              |(computeOverrideSize (w : ℚ) (h : ℚ) (t : ℚ)).2 -
                (h : ℚ) * specOverrideScale (w : ℚ) (h : ℚ) (t : ℚ)| ≤ 1 / 2)))
    ∧ computeOverrideSize 2000 2000 768 = (768, 768)
    ∧ (computeOverrideSize 2000 2000 768).1 ≤ 768
    ∧ (computeOverrideSize 2000 2000 768).2 ≤ 768 := by
  have heval : computeOverrideSize 2000 2000 768 = (768, 768) := by
    rw [computeOverrideSize, if_neg (by norm_num)]
    norm_num
    rw [jsRound_eq_of 768 768 (by norm_num) (by norm_num)]
    norm_num
  refine ⟨?_, heval, by rw [heval], by rw [heval]⟩
  intro w h t hw hh ht
  constructor
  · intro hin
    rw [computeOverrideSize, if_pos hin]
  · intro hcond
    have hwq : (0 : ℚ) < (w : ℚ) := by exact_mod_cast hw
    have hhq : (0 : ℚ) < (h : ℚ) := by exact_mod_cast hh
    have htq : (128 : ℚ) ≤ (t : ℚ) := by exact_mod_cast ht
    have htpos : (0 : ℚ) < (t : ℚ) := by linarith
    set sc := specOverrideScale (w : ℚ) (h : ℚ) (t : ℚ) with hsc
    have hscpos : 0 < sc := by
      rw [hsc, specOverrideScale]
      exact lt_min (div_pos htpos hwq) (div_pos htpos hhq)
    have hsclt1 : sc < 1 := by
      rw [hsc, specOverrideScale]
      rcases not_and_or.mp hcond with hx | hx
      · exact lt_of_le_of_lt (min_le_left _ _) ((div_lt_one hwq).mpr (not_le.mp hx))
      · exact lt_of_le_of_lt (min_le_right _ _) ((div_lt_one hhq).mpr (not_le.mp hx))
    have hwsc_le : (w : ℚ) * sc ≤ (t : ℚ) := by
      have h1 : (w : ℚ) * sc ≤ (w : ℚ) * ((t : ℚ) / (w : ℚ)) :=
        mul_le_mul_of_nonneg_left (min_le_left _ _) (le_of_lt hwq)
      rwa [mul_div_cancel₀ _ (ne_of_gt hwq)] at h1
    have hhsc_le : (h : ℚ) * sc ≤ (t : ℚ) := by
      have h1 : (h : ℚ) * sc ≤ (h : ℚ) * ((t : ℚ) / (h : ℚ)) :=
        mul_le_mul_of_nonneg_left (min_le_right _ _) (le_of_lt hhq)
      rwa [mul_div_cancel₀ _ (ne_of_gt hhq)] at h1
    have hroundw_le_t : jsRound ((w : ℚ) * sc) ≤ t := jsRound_le_of_le_intCast hwsc_le
    have hroundh_le_t : jsRound ((h : ℚ) * sc) ≤ t := jsRound_le_of_le_intCast hhsc_le
    have hroundw_le_w : jsRound ((w : ℚ) * sc) ≤ w := by
      refine jsRound_le_of_lt_half ?_
      nlinarith
    have hroundh_le_h : jsRound ((h : ℚ) * sc) ≤ h := by
      refine jsRound_le_of_lt_half ?_
      nlinarith
    have hbody : computeOverrideSize (w : ℚ) (h : ℚ) (t : ℚ) =
        (max 32 ((jsRound ((w : ℚ) * sc) : ℤ) : ℚ),
         max 32 ((jsRound ((h : ℚ) * sc) : ℤ) : ℚ)) := by
      rw [computeOverrideSize, if_neg hcond, hsc, specOverrideScale]
    rw [hbody]
    dsimp only
    refine ⟨?_, ?_, ?_, ?_, ?_, ?_⟩
    · exact max_le (by linarith) (by exact_mod_cast hroundw_le_t)
    · exact max_le (by linarith) (by exact_mod_cast hroundh_le_t)
    · rw [max_comm (w : ℚ) 32]
      exact max_le_max le_rfl (by exact_mod_cast hroundw_le_w)
    · rw [max_comm (h : ℚ) 32]
      exact max_le_max le_rfl (by exact_mod_cast hroundh_le_h)
    · intro h32
      have hmx : max (32 : ℚ) ((jsRound ((w : ℚ) * sc) : ℤ) : ℚ) =
          ((jsRound ((w : ℚ) * sc) : ℤ) : ℚ) :=
        max_eq_right (by exact_mod_cast h32)
      rw [hmx, abs_le]
      have ha := jsRound_cast_le ((w : ℚ) * sc)
      have hb := sub_half_lt_jsRound ((w : ℚ) * sc)
      constructor <;> linarith
    · intro h32
      have hmx : max (32 : ℚ) ((jsRound ((h : ℚ) * sc) : ℤ) : ℚ) =
          ((jsRound ((h : ℚ) * sc) : ℤ) : ℚ) :=
        max_eq_right (by exact_mod_cast h32)
      rw [hmx, abs_le]
      have ha := jsRound_cast_le ((h : ℚ) * sc)
      have hb := sub_half_lt_jsRound ((h : ℚ) * sc)
      constructor <;> linarith

/-- C4 witness: the amended bounds instantiated at a 2000×10 selection with a
768 target (output within target, floor visible on the height) and an
unchanged 100×50 selection within the target. -/
theorem C4_never_upscales_witness :
    (computeOverrideSize ((2000 : ℤ) : ℚ) ((10 : ℤ) : ℚ) ((768 : ℤ) : ℚ)).1 ≤ ((768 : ℤ) : ℚ)
    ∧ (computeOverrideSize ((2000 : ℤ) : ℚ) ((10 : ℤ) : ℚ) ((768 : ℤ) : ℚ)).2 ≤
        max ((10 : ℤ) : ℚ) 32
    ∧ computeOverrideSize ((100 : ℤ) : ℚ) ((50 : ℤ) : ℚ) ((768 : ℤ) : ℚ) =
        (((100 : ℤ) : ℚ), ((50 : ℤ) : ℚ)) :=
  ⟨((C4_never_upscales.1 2000 10 768 (by norm_num) (by norm_num) (by norm_num)).2
      (by push_cast; norm_num)).1,
    ((C4_never_upscales.1 2000 10 768 (by norm_num) (by norm_num) (by norm_num)).2
      (by push_cast; norm_num)).2.2.2.1,
    (C4_never_upscales.1 100 50 768 (by norm_num) (by norm_num) (by norm_num)).1
      (by push_cast; norm_num)⟩

/-! ## Preset application (src/hooks/useGenerationController.ts)

applyPreset does setForm(prev => ({...prev, ...DEFAULT_FORM, ...file.data.form})).
Form objects are modelled as maps from the known form fields to an optional
value (none = the key is absent from the object); object spread is the
right-biased merge of such maps. -/

/-- The fields of GenerationForm. -/
inductive FormField where
  | positivePrompt | negativePrompt | extraPrompt
  | steps | cfgScale
  | sampler | scheduler | model | vae | lora
  | loraWeight
  | controlNetModel | controlNetModule
  | controlNetWeight
  | denoisingStrength | maskFeather | imageCount | resolution | seed | clipSkip
  | restoreFaces | tiling
  | presetShortcut
  deriving DecidableEq

/-- A form field value: string, number, or boolean. -/
inductive FormValue where
  | str (s : String)
  | num (q : ℚ)
  | flag (b : Bool)
  deriving DecidableEq

/-- DEFAULT_FORM, transcribed from the source (0.35 = 7/20). -/
def DEFAULT_FORM : FormField → FormValue
  | .positivePrompt => .str ""
  | .negativePrompt => .str ""
  | .extraPrompt => .str ""
  | .steps => .num 20
  | .cfgScale => .num 7
  | .sampler => .str ""
  | .scheduler => .str ""
  | .model => .str ""
  | .vae => .str ""
  | .lora => .str ""
  | .loraWeight => .num 1
  | .controlNetModel => .str ""
  | .controlNetModule => .str ""
  | .controlNetWeight => .num 1
  | .denoisingStrength => .num (7 / 20)
  | .maskFeather => .num 20
  | .imageCount => .num 1
  | .resolution => .num 768
  | .seed => .num (-1)
  | .clipSkip => .num 0
  | .restoreFaces => .flag false
  | .tiling => .flag false
  | .presetShortcut => .str ""

/-- A JavaScript object over the known form fields: none = key absent. -/
def FormObject := FormField → Option FormValue

/-- Object spread {...base, ...over}: a key present in the later object wins. -/
def spreadObjects (base over : FormObject) : FormObject := fun f =>
  match over f with
  | some v => some v
  | none => base f

/-- A total form (every known field present), e.g. the live form state. -/
def totalForm (g : FormField → FormValue) : FormObject := fun f => some (g f)

/-- applyPreset on the form state: {...prev, ...DEFAULT_FORM, ...presetForm}. -/
def applyPresetForm (prev : FormField → FormValue) (presetForm : FormObject) : FormObject :=
  spreadObjects (spreadObjects (totalForm prev) (totalForm DEFAULT_FORM)) presetForm

/-- C7: applying a preset fully replaces every known form field: each field
becomes the preset value when the preset defines it and the default value
otherwise, and the result is independent of the previously-live form. -/
theorem C7_preset_replaces_form :
    (∀ (prev : FormField → FormValue) (preset : FormObject) (f : FormField),
      applyPresetForm prev preset f = some ((preset f).getD (DEFAULT_FORM f)))
    ∧ (∀ (prev1 prev2 : FormField → FormValue) (preset : FormObject),
        applyPresetForm prev1 preset = applyPresetForm prev2 preset) := by
  have key : ∀ (prev : FormField → FormValue) (preset : FormObject) (f : FormField),
      applyPresetForm prev preset f = some ((preset f).getD (DEFAULT_FORM f)) := by
    intro prev preset f
    rw [applyPresetForm, spreadObjects]
    cases hp : preset f with
    | some v => rfl
    | none => rfl
  exact ⟨key, fun prev1 prev2 preset => funext fun f => (key prev1 preset f).trans
    (key prev2 preset f).symm⟩

/-! ## Progress state (src/hooks/useGenerationController.ts)

The observable progress value: setProgress(0) at job start, setProgress(p)
on every polling tick whose fetched progress field is a number p (none
models a failed fetch or a non-numeric field, which does not set),
setProgress(1) on the success path, setProgress(0) in the finally block. -/

inductive ProgressEvent where
  | start
  | poll (p : Option ℚ)
  | complete
  | finish
  deriving DecidableEq

/-- One setProgress transition of the controller. -/
def progressStep (progress : ℚ) : ProgressEvent → ℚ
  | .start => 0
  | .poll (some p) => p
  | .poll none => progress
  | .complete => 1
  | .finish => 0

/-- The progress value after a sequence of events, from the initial
useState(0). -/
def runProgress (events : List ProgressEvent) : ℚ :=
  events.foldl progressStep 0

/-- Every polled numeric progress value in the trace lies in [0,1]. -/
def pollsWithinUnit (events : List ProgressEvent) : Prop :=
  ∀ q : ℚ, ProgressEvent.poll (some q) ∈ events → 0 ≤ q ∧ q ≤ 1

/-- C9 counterexample: the polled value is stored without clamping, so a
polling tick reporting 2 during a job leaves the observable progress at 2,
outside [0,1]. -/
theorem C9_counterexample :
    ¬(runProgress [ProgressEvent.start, ProgressEvent.poll (some 2)] ≤ 1) := by
  rw [runProgress]
  norm_num [List.foldl, progressStep]

theorem runProgress_aux (events : List ProgressEvent) :
    ∀ p0 : ℚ, 0 ≤ p0 → p0 ≤ 1 → pollsWithinUnit events →
      0 ≤ events.foldl progressStep p0 ∧ events.foldl progressStep p0 ≤ 1 := by
  induction events with
  | nil => exact fun p0 h0 h1 _ => ⟨h0, h1⟩
  | cons e es ih =>
    intro p0 h0 h1 hp
    have hp' : pollsWithinUnit es := fun q hq => hp q (List.mem_cons_of_mem e hq)
    rw [List.foldl_cons]
    cases e with
    | start => exact ih 0 le_rfl (by norm_num) hp'
    | poll p =>
      cases p with
      | none => exact ih p0 h0 h1 hp'
      | some q =>
        have hq := hp q (List.mem_cons_self _ _)
        exact ih q hq.1 hq.2 hp'
    | complete => exact ih 1 (by norm_num) le_rfl hp'
    | finish => exact ih 0 le_rfl (by norm_num) hp'

/-- C9 (amended): provided every polled numeric progress value lies in
[0,1] (the code stores the polled field unclamped), the observable progress
value lies in [0,1] after every sequence of progress events: reset to 0 at
job start, set by polling, forced to 1 on success, reset to 0 on
completion or failure. -/
theorem C9_progress_in_unit (events : List ProgressEvent)
    (hp : pollsWithinUnit events) :
    0 ≤ runProgress events ∧ runProgress events ≤ 1 :=
  runProgress_aux events 0 le_rfl (by norm_num) hp

/-- C9 witness: a full successful job trace with an in-range poll. -/
theorem C9_progress_in_unit_witness :
    0 ≤ runProgress [ProgressEvent.start, ProgressEvent.poll (some (1 / 2)),
      ProgressEvent.poll none, ProgressEvent.complete, ProgressEvent.finish]
    ∧ runProgress [ProgressEvent.start, ProgressEvent.poll (some (1 / 2)),
        ProgressEvent.poll none, ProgressEvent.complete, ProgressEvent.finish] ≤ 1 :=
  C9_progress_in_unit _ (by
    intro q hq
    simp only [List.mem_cons, List.not_mem_nil, or_false] at hq
    rcases hq with h | h | h | h | h <;> simp_all <;> norm_num)

/-! ## Batch execution (src/hooks/useGenerationController.ts)

runBatch iterates the queued items in order; per item it calls img2img
(which may throw, or answer with an optional images array), throws a named
error when the images list is empty, and otherwise places each image into
the document.  Photoshop-side helpers whose failures the source swallows
with .catch (switchToDocument, setSelectionBounds, groupLayers) have no
effect on the modelled state, and placement/raise-to-top are modelled as
succeeding.  The generation outcome per item is an input of the model. -/

inductive GenerationStatus where
  | idle | running | success | error
  deriving DecidableEq

structure BatchItem where
  id : String
  name : String
  deriving DecidableEq

/-- The thrown message: 批次「name」未返回图像. -/
def batchFailureMessage (name : String) : String :=
  "批次「" ++ name ++ "」未返回图像"

def toDataUrl (base64 : String) : String := "data:image/png;base64," ++ base64

/-- Observable effects of a batch run: generation attempts (item names, in
order) and the data URLs placed into the document (in order). -/
structure RunLog where
  attempted : List String
  placed : List String
  deriving DecidableEq

/-- The outcome of img2img for an item: error = the request threw; ok o =
a response whose images field is o (none models an absent field, read back
as [] by the source's ?? []). -/
def GenOutcome := Except String (Option (List String))

/-- The for-loop body of runBatch over the queued items. -/
def processBatchItems (gen : BatchItem → GenOutcome) :
    List BatchItem → RunLog → RunLog × Option String
  | [], log => (log, none)
  | item :: rest, log =>
    let log1 : RunLog := ⟨log.attempted ++ [item.name], log.placed⟩
    match gen item with
    | .error msg => (log1, some msg)
    | .ok imagesOpt =>
      if h : imagesOpt.getD [] = [] then
        (log1, some (batchFailureMessage item.name))
      else
        processBatchItems gen rest
          ⟨log1.attempted, log1.placed ++ (imagesOpt.getD []).map toDataUrl⟩

structure ControllerState where
  status : GenerationStatus
  error : Option String
  batchItems : List BatchItem
  deriving DecidableEq

/-- runBatch: early return on an empty queue (status untouched); otherwise
status running / error null, then the loop; on success the queue is cleared
and status set to success; on a throw the queue is left as it was, status
error, and the message stored. -/
def runBatch (gen : BatchItem → GenOutcome) (st : ControllerState) :
    ControllerState × RunLog :=
  if st.batchItems = [] then (st, ⟨[], []⟩)
  else
    match processBatchItems gen st.batchItems ⟨[], []⟩ with
    | (log, none) => (⟨.success, none, []⟩, log)
    | (log, some msg) => (⟨.error, some msg, st.batchItems⟩, log)

/-- The item's generation returns at least one image. -/
def itemSucceeds (gen : BatchItem → GenOutcome) (item : BatchItem) : Prop :=
  ∃ o, gen item = .ok o ∧ o.getD [] ≠ []

theorem processBatchItems_success (gen : BatchItem → GenOutcome)
    (items : List BatchItem) :
    ∀ log : RunLog, (∀ i ∈ items, itemSucceeds gen i) →
      (processBatchItems gen items log).2 = none
      ∧ (processBatchItems gen items log).1.attempted =
          log.attempted ++ items.map (fun i => i.name) := by
  induction items with
  | nil =>
    intro log _
    simp [processBatchItems]
  | cons item rest ih =>
    intro log hall
    obtain ⟨o, ho, hne⟩ := hall item (List.mem_cons_self _ _)
    have hrest : ∀ i ∈ rest, itemSucceeds gen i :=
      fun i hi => hall i (List.mem_cons_of_mem _ hi)
    rw [processBatchItems, ho]
    dsimp only
    rw [dif_neg hne]
    have := ih ⟨log.attempted ++ [item.name], log.placed ++ (o.getD []).map toDataUrl⟩ hrest
    refine ⟨this.1, ?_⟩
    rw [this.2]
    simp

theorem processBatchItems_firstFail (gen : BatchItem → GenOutcome)
    (pre : List BatchItem) (item : BatchItem) (post : List BatchItem) :
    ∀ log : RunLog, (∀ i ∈ pre, itemSucceeds gen i) →
      (∃ o, gen item = Except.ok o ∧ o.getD [] = []) →
      (processBatchItems gen (pre ++ item :: post) log).2 =
          some (batchFailureMessage item.name)
      ∧ (processBatchItems gen (pre ++ item :: post) log).1.attempted =
          log.attempted ++ pre.map (fun i => i.name) ++ [item.name] := by
  induction pre with
  | nil =>
    intro log _ hitem
    obtain ⟨o, ho, hemp⟩ := hitem
    rw [List.nil_append, processBatchItems, ho]
    dsimp only
    rw [dif_pos hemp]
    simp
  | cons p rest ih =>
    intro log hall hitem
    obtain ⟨o, ho, hne⟩ := hall p (List.mem_cons_self _ _)
    have hrest : ∀ i ∈ rest, itemSucceeds gen i :=
      fun i hi => hall i (List.mem_cons_of_mem _ hi)
    rw [List.cons_append, processBatchItems, ho]
    dsimp only
    rw [dif_neg hne]
    have := ih ⟨log.attempted ++ [p.name], log.placed ++ (o.getD []).map toDataUrl⟩ hrest hitem
    refine ⟨this.1, ?_⟩
    rw [this.2]
    simp

theorem processBatchItems_attempted_take (gen : BatchItem → GenOutcome)
    (items : List BatchItem) :
    ∀ log : RunLog, ∃ k, (processBatchItems gen items log).1.attempted =
      log.attempted ++ (items.map (fun i => i.name)).take k := by
  induction items with
  | nil =>
    intro log
    exact ⟨0, by simp [processBatchItems]⟩
  | cons item rest ih =>
    intro log
    rw [processBatchItems]
    cases ho : gen item with
    | error msg => exact ⟨1, by simp⟩
    | ok o =>
      dsimp only
      by_cases hemp : o.getD [] = []
      · rw [dif_pos hemp]
        exact ⟨1, by simp⟩
      · rw [dif_neg hemp]
        obtain ⟨k, hk⟩ :=
          ih ⟨log.attempted ++ [item.name], log.placed ++ (o.getD []).map toDataUrl⟩
        exact ⟨k + 1, by rw [hk]; simp⟩

/-- C2: if the first non-succeeding queued item returns zero images, runBatch
raises the failure naming that item, attempts no later queued item, sets the
global status to error with that message surfaced, and leaves the queue
intact; if every queued item succeeds (the queue being nonempty), the whole
queue is cleared and the status set to success; and generation attempts
always follow the queue in enqueue order: the attempted names are an
in-order prefix of the queued names. -/
theorem C2_batch_failure_semantics :
    (∀ (gen : BatchItem → GenOutcome) (st : ControllerState)
        (pre post : List BatchItem) (item : BatchItem) (o : Option (List String)),
      st.batchItems = pre ++ item :: post →
      (∀ i ∈ pre, itemSucceeds gen i) →
      gen item = Except.ok o → o.getD [] = [] →
      (runBatch gen st).1.status = GenerationStatus.error
      ∧ (runBatch gen st).1.error = some (batchFailureMessage item.name)
      ∧ (runBatch gen st).1.batchItems = st.batchItems
      ∧ (runBatch gen st).2.attempted = pre.map (fun i => i.name) ++ [item.name])
    ∧ (∀ (gen : BatchItem → GenOutcome) (st : ControllerState),
        st.batchItems ≠ [] → (∀ i ∈ st.batchItems, itemSucceeds gen i) →
        (runBatch gen st).1.status = GenerationStatus.success
        ∧ (runBatch gen st).1.batchItems = [])
    ∧ (∀ (gen : BatchItem → GenOutcome) (st : ControllerState),
        ∃ k, (runBatch gen st).2.attempted =
          (st.batchItems.map (fun i => i.name)).take k) := by
  refine ⟨?_, ?_, ?_⟩
  · intro gen st pre post item o hq hpre ho hemp
    have hne : st.batchItems ≠ [] := by
      rw [hq]
      simp
    obtain ⟨hsnd, hatt⟩ :=
      processBatchItems_firstFail gen pre item post ⟨[], []⟩ hpre ⟨o, ho, hemp⟩
    rw [runBatch, if_neg hne]
    have hpair : processBatchItems gen st.batchItems ⟨[], []⟩ =
        ((processBatchItems gen st.batchItems ⟨[], []⟩).1,
          some (batchFailureMessage item.name)) := by
      rw [hq, ← hsnd]
    rw [hpair]
    dsimp only
    refine ⟨rfl, rfl, rfl, ?_⟩
    rw [hq, hatt]
    simp
  · intro gen st hne hall
    obtain ⟨hsnd, _⟩ := processBatchItems_success gen st.batchItems ⟨[], []⟩ hall
    rw [runBatch, if_neg hne]
    have hpair : processBatchItems gen st.batchItems ⟨[], []⟩ =
        ((processBatchItems gen st.batchItems ⟨[], []⟩).1, none) := by
      rw [← hsnd]
    rw [hpair]
    exact ⟨rfl, rfl⟩
  · intro gen st
    by_cases hne : st.batchItems = []
    · rw [runBatch, if_pos hne]
      exact ⟨0, by simp⟩
    · obtain ⟨k, hk⟩ := processBatchItems_attempted_take gen st.batchItems ⟨[], []⟩
      rw [runBatch, if_neg hne]
      rcases hres : processBatchItems gen st.batchItems ⟨[], []⟩ with ⟨log, res⟩
      rw [hres] at hk
      cases res with
      | none =>
        refine ⟨k, ?_⟩
        dsimp only
        simpa using hk
      | some msg =>
        refine ⟨k, ?_⟩
        dsimp only
        simpa using hk

/-- C2 witness items and generation outcomes: a queue of three items where
the second returns an empty images array. -/
def itemA : BatchItem := ⟨"item-a", "A"⟩

def itemB : BatchItem := ⟨"item-b", "B"⟩

def itemC : BatchItem := ⟨"item-c", "C"⟩

def gen3 : BatchItem → GenOutcome := fun it =>
  if it.id = "item-b" then Except.ok (some []) else Except.ok (some ["x"])

def st3 : ControllerState := ⟨GenerationStatus.idle, none, [itemA, itemB, itemC]⟩

def stOK : ControllerState := ⟨GenerationStatus.idle, none, [itemA, itemC]⟩

/-- C2 witness: on the three-item queue whose second item returns zero
images the failure semantics hold, and on a two-item all-succeeding queue
the queue is cleared with success. -/
theorem C2_batch_failure_semantics_witness :
    ((runBatch gen3 st3).1.status = GenerationStatus.error
      ∧ (runBatch gen3 st3).1.error = some (batchFailureMessage itemB.name)
      ∧ (runBatch gen3 st3).1.batchItems = st3.batchItems
      ∧ (runBatch gen3 st3).2.attempted = [itemA].map (fun i => i.name) ++ [itemB.name])
    ∧ ((runBatch gen3 stOK).1.status = GenerationStatus.success
      ∧ (runBatch gen3 stOK).1.batchItems = []) :=
  ⟨C2_batch_failure_semantics.1 gen3 st3 [itemA] [itemC] itemB (some []) rfl
      (by
        intro i hi
        simp only [List.mem_singleton] at hi
        exact ⟨some ["x"], by rw [hi]; rfl, by simp⟩)
      rfl rfl,
    C2_batch_failure_semantics.2.1 gen3 stOK (by simp [stOK])
      (by
        intro i hi
        simp only [stOK, List.mem_cons, List.not_mem_nil, or_false] at hi
        rcases hi with rfl | rfl <;> exact ⟨some ["x"], rfl, by simp⟩)⟩

/-- Evaluation of the three-item scenario: item 2 returns zero images. -/
theorem runBatch_gen3_st3 :
    runBatch gen3 st3 =
      (⟨GenerationStatus.error, some (batchFailureMessage itemB.name),
        [itemA, itemB, itemC]⟩,
       ⟨[itemA.name, itemB.name], List.map toDataUrl ["x"]⟩) := by
  have hne : st3.batchItems ≠ [] := by simp [st3]
  rw [runBatch, if_neg hne]
  have h1 : processBatchItems gen3 st3.batchItems ⟨[], []⟩ =
      (⟨[itemA.name, itemB.name], List.map toDataUrl ["x"]⟩,
        some (batchFailureMessage itemB.name)) := by
    rw [show st3.batchItems = [itemA, itemB, itemC] from rfl]
    rw [processBatchItems, show gen3 itemA = Except.ok (some ["x"]) from rfl]
    dsimp only
    rw [dif_neg (show ¬((some ["x"] : Option (List String)).getD [] = []) by simp)]
    rw [processBatchItems, show gen3 itemB = Except.ok (some []) from rfl]
    dsimp only
    rw [dif_pos (show ((some [] : Option (List String)).getD [] = []) by simp)]
    simp
  rw [h1]
  rfl

/-- C3 counterexample: on a three-item queue whose second item returns zero
images, item 1 is still in the batch queue after runBatch returns (the
source clears the queue only on full success and removes nothing on
failure), refuting the claim that item 1 is no longer in the queue. -/
theorem C3_counterexample :
    itemA ∈ (runBatch gen3 st3).1.batchItems
    ∧ (runBatch gen3 st3).1.batchItems = [itemA, itemB, itemC] := by
  rw [runBatch_gen3_st3]
  exact ⟨by simp, rfl⟩

/-- C3 (amended): when runBatch runs on a queue of three items, item 1
succeeding with images and item 2 returning zero images: item 1's placement
side-effects are retained in the run log, item 3's generation is never
attempted, the failure names item 2, and the batch queue still contains all
three items — including the completed item 1 — since the source leaves the
queue fully intact on failure. -/
theorem C3_batch_midfail (a b c : BatchItem) (gen : BatchItem → GenOutcome)
    (st : ControllerState) (imgsA : List String) (ob : Option (List String))
    (hq : st.batchItems = [a, b, c])
    (ha : gen a = Except.ok (some imgsA)) (hA : imgsA ≠ [])
    (hb : gen b = Except.ok ob) (hB : ob.getD [] = []) :
    runBatch gen st =
      (⟨GenerationStatus.error, some (batchFailureMessage b.name), [a, b, c]⟩,
       ⟨[a.name, b.name], imgsA.map toDataUrl⟩) := by
  have hne : st.batchItems ≠ [] := by
    rw [hq]
    simp
  rw [runBatch, if_neg hne, hq]
  rw [processBatchItems, ha]
  dsimp only
  rw [dif_neg (show ¬((some imgsA).getD [] = []) by simpa using hA)]
  rw [processBatchItems, hb]
  dsimp only
  rw [dif_pos hB]
  simp

/-- C3 witness: the amended statement instantiated at the concrete
three-item queue. -/
theorem C3_batch_midfail_witness :
    runBatch gen3 st3 =
      (⟨GenerationStatus.error, some (batchFailureMessage itemB.name),
        [itemA, itemB, itemC]⟩,
       ⟨[itemA.name, itemB.name], List.map toDataUrl ["x"]⟩) :=
  C3_batch_midfail itemA itemB itemC gen3 st3 ["x"] (some []) rfl rfl (by simp) rfl rfl

/-! ## Catalog discovery (src/services/apiClient.ts fetchOptions)

Each sub-fetch awaits a network request; its outcome (parsed JSON value, or
a thrown error) is an input of the model.  JSON values are modelled by an
inductive; JavaScript number-to-string formatting is abstracted (integers
format exactly; claims below do not depend on it). -/

inductive JsVal where
  | jnull
  | jbool (b : Bool)
  | jnum (q : ℚ)
  | jstr (s : String)
  | jarr (xs : List JsVal)
  | jobj (fields : List (String × JsVal))

/-- JavaScript truthiness. -/
def truthy : JsVal → Bool
  | .jnull => false
  | .jbool b => b
  | .jnum q => q != 0
  | .jstr s => s != ""
  | .jarr _ => true
  | .jobj _ => true

/-- Array.isArray. -/
def isArr : JsVal → Bool
  | .jarr _ => true
  | _ => false

/-- typeof x === "object" (true for null, arrays and plain objects). -/
def isObjectType : JsVal → Bool
  | .jnull => true
  | .jarr _ => true
  | .jobj _ => true
  | _ => false

mutual

/-- String(x) conversion; numeric formatting is abstracted for non-integer
rationals. -/
def jsToString : JsVal → String
  | .jnull => "null"
  | .jbool true => "true"
  | .jbool false => "false"
  | .jnum q => if q.den = 1 then toString q.num else toString q
  | .jstr s => s
  | .jarr xs => jsArrJoin xs
  | .jobj _ => "[object Object]"

/-- Array toString: comma-join, null elements as empty. -/
def jsArrJoin : List JsVal → String
  | [] => ""
  | [x] =>
    match x with
    | .jnull => ""
    | v => jsToString v
  | x :: rest =>
    (match x with
      | .jnull => ""
      | v => jsToString v) ++ "," ++ jsArrJoin rest

end

/-- Property lookup on a JSON object (objects are modelled with unique
keys, as JSON.parse produces); any other value has no string properties. -/
def getProp : JsVal → String → Option JsVal
  | .jobj fields, key => (fields.find? (fun kv => kv.1 == key)).map (fun kv => kv.2)
  | _, _ => none

/-- apiClient.ts extractLabel: the first key whose value is a string with
nonempty trim, trimmed. -/
def extractLabel : JsVal → List String → String
  | _, [] => ""
  | item, key :: rest =>
    match getProp item key with
    | some (.jstr s) => if s.trim.length > 0 then s.trim else extractLabel item rest
    | _ => extractLabel item rest

structure SdOption where
  label : String
  value : String
  raw : JsVal

/-- Truthiness of the optional valueKey argument. -/
def valueKeyTruthy : Option String → Bool
  | some s => s != ""
  | none => false

/-- String(x ?? ""): null/undefined coalesce to the empty string. -/
def coalesceToString : Option JsVal → String
  | some .jnull => ""
  | some v => jsToString v
  | none => ""

/-- The body of normalizeOptions applied to one collection item, including
the source precedence (extractLabel(...) || valueKey) ? String(...) : ""
where the extracted label only decides the conditional. -/
def normalizeItem (labelKeys : List String) (valueKey : Option String)
    (item : JsVal) : Option SdOption :=
  if truthy item && isObjectType item then
    let extracted := extractLabel item labelKeys
    let label := if extracted ≠ "" ∨ valueKeyTruthy valueKey then
        coalesceToString (getProp item (valueKey.getD (labelKeys.headD "")))
      else ""
    let value := if valueKeyTruthy valueKey then
        match getProp item (valueKey.getD "") with
        | some (.jstr s) => s
        | _ => label
      else label
    if label = "" ∨ value = "" then none
    else some ⟨label, value, item⟩
  else none

/-- apiClient.ts normalizeOptions: non-arrays give []; items map through
normalizeItem and null results are filtered out. -/
def normalizeOptions (collection : JsVal) (labelKeys : List String)
    (valueKey : Option String) : List SdOption :=
  match collection with
  | .jarr items => items.filterMap (normalizeItem labelKeys valueKey)
  | _ => []

/-- Array.prototype.flat (one level). -/
def jsFlatten (xs : List JsVal) : List JsVal :=
  (xs.map (fun v => match v with
    | .jarr ys => ys
    | v => [v])).join

/-- The controlnet model endpoint loop: first usable endpoint result wins
(an array as is, an object by Object.values(...).flat()); all failing or
unusable gives []. -/
def cnModelsLoop : List (Except Unit JsVal) → JsVal
  | [] => .jarr []
  | e :: rest =>
    let result := match e with
      | .ok v => v
      | .error _ => .jnull
    if truthy result then
      match result with
      | .jarr xs => .jarr xs
      | .jobj fields => .jarr (jsFlatten (fields.map (fun kv => kv.2)))
      | _ => cnModelsLoop rest
    else cnModelsLoop rest

/-- The outcomes of the awaited sub-fetches of fetchOptions: cn0..cn3 are
the four controlnet model endpoints in source order. -/
structure FetchEnv where
  models : Except Unit JsVal
  sdModules : Except Unit JsVal
  sdVae : Except Unit JsVal
  loras : Except Unit JsVal
  samplers : Except Unit JsVal
  schedulers : Except Unit JsVal
  cn0 : Except Unit JsVal
  cn1 : Except Unit JsVal
  cn2 : Except Unit JsVal
  cn3 : Except Unit JsVal
  cnModules : Except Unit JsVal

/-- fetchJson(...).catch(() => []): a failed fetch degrades to []. -/
def orEmptyArr : Except Unit JsVal → JsVal
  | .ok v => v
  | .error _ => .jarr []

/-- The VAE source: sd-modules if it answered an array (catch gives null),
otherwise sd-vae with catch to []. -/
def vaeSource (sdModules sdVae : Except Unit JsVal) : JsVal :=
  let viaModules := match sdModules with
    | .ok v => v
    | .error _ => .jnull
  if truthy viaModules && isArr viaModules then viaModules
  else orEmptyArr sdVae

structure SdOptions where
  models : List SdOption
  vaes : List SdOption
  loras : List SdOption
  samplers : List SdOption
  schedulers : List SdOption
  controlNetModels : List SdOption
  controlNetModules : List SdOption

/-- apiClient.ts fetchOptions as a function of the sub-fetch outcomes. -/
def fetchOptions (env : FetchEnv) : SdOptions :=
  { models := normalizeOptions (orEmptyArr env.models)
      ["title", "model_name", "name"] (some "model_name")
    vaes := normalizeOptions (vaeSource env.sdModules env.sdVae)
      ["model_name", "name", "title"] none
    loras := normalizeOptions (orEmptyArr env.loras) ["name", "alias"] none
    samplers := normalizeOptions (orEmptyArr env.samplers) ["name"] none
    schedulers := normalizeOptions (orEmptyArr env.schedulers) ["name", "label"] none
    controlNetModels := normalizeOptions
      (cnModelsLoop [env.cn0, env.cn1, env.cn2, env.cn3]) ["model", "name"] none
    controlNetModules := normalizeOptions (orEmptyArr env.cnModules)
      ["module", "name"] none }

/-- The environment in which every sub-fetch fails. -/
def envAllFail : FetchEnv :=
  ⟨.error (), .error (), .error (), .error (), .error (), .error (),
   .error (), .error (), .error (), .error (), .error ()⟩

/-- C8: a catalog refresh is never partially invalid and never aborted by a
single failing sub-fetch: for each category, if that category's fetch fails
(for VAEs: both sd-modules and sd-vae; for controlnet models: all four
endpoints) the result contains an empty list for that category; each
category's result depends only on its own sub-fetch outcomes, so the other
categories are unaffected; and fetchOptions is a total function of the
outcomes — in particular, when every sub-fetch fails it still returns the
all-empty catalog rather than throwing. -/
theorem C8_catalog_fault_tolerance :
    (∀ env : FetchEnv, env.models = Except.error () → (fetchOptions env).models = [])
    ∧ (∀ env : FetchEnv, env.sdModules = Except.error () → env.sdVae = Except.error () →
        (fetchOptions env).vaes = [])
    ∧ (∀ env : FetchEnv, env.loras = Except.error () → (fetchOptions env).loras = [])
    ∧ (∀ env : FetchEnv, env.samplers = Except.error () → (fetchOptions env).samplers = [])
    ∧ (∀ env : FetchEnv, env.schedulers = Except.error () →
        (fetchOptions env).schedulers = [])
    ∧ (∀ env : FetchEnv, env.cn0 = Except.error () → env.cn1 = Except.error () →
        env.cn2 = Except.error () → env.cn3 = Except.error () →
        (fetchOptions env).controlNetModels = [])
    ∧ (∀ env : FetchEnv, env.cnModules = Except.error () →
        (fetchOptions env).controlNetModules = [])
    ∧ (∀ env env' : FetchEnv, env.models = env'.models →
        (fetchOptions env).models = (fetchOptions env').models)
    ∧ (∀ env env' : FetchEnv, env.sdModules = env'.sdModules → env.sdVae = env'.sdVae →
        (fetchOptions env).vaes = (fetchOptions env').vaes)
    ∧ (∀ env env' : FetchEnv, env.loras = env'.loras →
        (fetchOptions env).loras = (fetchOptions env').loras)
    ∧ (∀ env env' : FetchEnv, env.samplers = env'.samplers →
        (fetchOptions env).samplers = (fetchOptions env').samplers)
    ∧ (∀ env env' : FetchEnv, env.schedulers = env'.schedulers →
        (fetchOptions env).schedulers = (fetchOptions env').schedulers)
    ∧ (∀ env env' : FetchEnv, env.cn0 = env'.cn0 → env.cn1 = env'.cn1 →
        env.cn2 = env'.cn2 → env.cn3 = env'.cn3 →
        (fetchOptions env).controlNetModels = (fetchOptions env').controlNetModels)
    ∧ (∀ env env' : FetchEnv, env.cnModules = env'.cnModules →
        (fetchOptions env).controlNetModules = (fetchOptions env').controlNetModules)
    ∧ fetchOptions envAllFail = ⟨[], [], [], [], [], [], []⟩ := by
  refine ⟨?_, ?_, ?_, ?_, ?_, ?_, ?_, ?_, ?_, ?_, ?_, ?_, ?_, ?_, ?_⟩
  · intro env h
    simp [fetchOptions, h, orEmptyArr, normalizeOptions]
  · intro env h1 h2
    simp [fetchOptions, h1, h2, vaeSource, truthy, orEmptyArr, normalizeOptions]
  · intro env h
    simp [fetchOptions, h, orEmptyArr, normalizeOptions]
  · intro env h
    simp [fetchOptions, h, orEmptyArr, normalizeOptions]
  · intro env h
    simp [fetchOptions, h, orEmptyArr, normalizeOptions]
  · intro env h0 h1 h2 h3
    simp [fetchOptions, h0, h1, h2, h3, cnModelsLoop, truthy, normalizeOptions]
  · intro env h
    simp [fetchOptions, h, orEmptyArr, normalizeOptions]
  · intro env env' h
    simp only [fetchOptions]
    rw [h]
  · intro env env' h1 h2
    simp only [fetchOptions]
    rw [h1, h2]
  · intro env env' h
    simp only [fetchOptions]
    rw [h]
  · intro env env' h
    simp only [fetchOptions]
    rw [h]
  · intro env env' h
    simp only [fetchOptions]
    rw [h]
  · intro env env' h0 h1 h2 h3
    simp only [fetchOptions]
    rw [h0, h1, h2, h3]
  · intro env env' h
    simp only [fetchOptions]
    rw [h]
  · simp [fetchOptions, envAllFail, vaeSource, truthy, orEmptyArr, cnModelsLoop,
      normalizeOptions]

/-- C8 witness: every failure clause instantiated at the all-failing
environment. -/
theorem C8_catalog_fault_tolerance_witness :
    (fetchOptions envAllFail).models = []
    ∧ (fetchOptions envAllFail).vaes = []
    ∧ (fetchOptions envAllFail).loras = []
    ∧ (fetchOptions envAllFail).samplers = []
    ∧ (fetchOptions envAllFail).schedulers = []
    ∧ (fetchOptions envAllFail).controlNetModels = []
    ∧ (fetchOptions envAllFail).controlNetModules = []
    ∧ (fetchOptions envAllFail).models = (fetchOptions envAllFail).models :=
  ⟨C8_catalog_fault_tolerance.1 envAllFail rfl,
    C8_catalog_fault_tolerance.2.1 envAllFail rfl rfl,
    C8_catalog_fault_tolerance.2.2.1 envAllFail rfl,
    C8_catalog_fault_tolerance.2.2.2.1 envAllFail rfl,
    C8_catalog_fault_tolerance.2.2.2.2.1 envAllFail rfl,
    C8_catalog_fault_tolerance.2.2.2.2.2.1 envAllFail rfl rfl rfl rfl,
    C8_catalog_fault_tolerance.2.2.2.2.2.2.1 envAllFail rfl,
    C8_catalog_fault_tolerance.2.2.2.2.2.2.2.1 envAllFail envAllFail rfl⟩

end PXD
